import Mathlib

/-!
Verification of the GiftLog application core (src/app.py): the filtered
gift query with its aggregates, the calendar feed builder with its ICS
text escaping, and the create/edit form handlers.  Text is modelled as
`List Char` so that stripping, substring search and escaping are fully
executable; dates are modelled as abstract day numbers (`Nat`); database
rows are Lean structures and the SQLAlchemy query chain is an explicit
filter over the owner's rows.
-/

set_option autoImplicit false

namespace GiftLog

/-- Text: a list of characters, so every string operation is executable. -/
abbrev Str := List Char

/-- Python `str.strip()`: drop whitespace from both ends. -/
def pyStrip (s : Str) : Str :=
  ((s.dropWhile Char.isWhitespace).reverse.dropWhile Char.isWhitespace).reverse

/-- `needle` occurs at the start of `hay`. -/
def startsWithSub : Str → Str → Bool
  | [], _ => true
  | _ :: _, [] => false
  | a :: as, b :: bs => a == b && startsWithSub as bs

/-- Substring containment, the semantics of `Gift.title.contains(q)`
(`title LIKE '%q%'`; the ASCII case folding some database backends apply
to LIKE is not modelled). -/
def containsSub (needle : Str) : Str → Bool
  | [] => needle.isEmpty
  | c :: t => startsWithSub needle (c :: t) || containsSub needle t

/-- A row of the `gift` table (src/app.py lines 59-74). -/
structure Gift where
  id : Nat
  user_id : Nat
  title : Str
  memo : Str
  giver_id : Option Nat
  category_id : Option Nat
  received_date : Nat
  thank_you_sent : Bool
  return_due_date : Option Nat
  return_done : Bool
  amount_yen : Option Int
  deriving DecidableEq

/-- A row of the `giver` table (src/app.py lines 46-51). -/
structure Giver where
  id : Nat
  user_id : Nat
  name : Str
  contact : Str
  deriving DecidableEq

/-- A row of the `category` table (src/app.py lines 53-57). -/
structure Category where
  id : Nat
  user_id : Nat
  name : Str
  deriving DecidableEq

/-- The persistent store: the rows of the three user-owned tables, in
insertion (rowid) order. -/
structure AppState where
  gifts : List Gift
  givers : List Giver
  categories : List Category
  deriving DecidableEq

/-- The optional filter parameters of the gifts list view, as parsed from
the request (src/app.py lines 187-193): `q` is the raw text parameter
(the handler strips it), the ids and bounds are `None` when absent or
unparseable (`type=int`), the two flags come from `== "1"` tests. -/
structure Filters where
  q : Str
  giver_id : Option Nat
  category_id : Option Nat
  only_todo : Bool
  min_amount : Option Int
  max_amount : Option Int
  amount_only : Bool
  deriving DecidableEq

/-- Python truthiness of an optional integer: `None` and `0` are falsy. -/
def truthyInt : Option Nat → Bool
  | none => false
  | some n => n != 0

/-- The conjunction of row conditions accumulated on `qset` by the gifts
view (src/app.py lines 195-210), including the Python truthiness of the
`if q:` / `if selected_giver_id:` / `if selected_category_id:` guards and
SQL three-valued comparison of a NULL `amount_yen` against a bound. -/
def matchesFilters (uid : Nat) (f : Filters) (g : Gift) : Bool :=
  g.user_id == uid
  && ((pyStrip f.q).isEmpty || containsSub (pyStrip f.q) g.title)
  && (!truthyInt f.giver_id || g.giver_id == f.giver_id)
  && (!truthyInt f.category_id || g.category_id == f.category_id)
  && (!f.only_todo || (g.return_done == false && g.return_due_date.isSome))
  && (!(f.amount_only || f.min_amount.isSome || f.max_amount.isSome)
      || g.amount_yen.isSome)
  && (match f.min_amount, g.amount_yen with
      | some m, some a => decide (m ≤ a)
      | some _, none => false
      | none, _ => true)
  && (match f.max_amount, g.amount_yen with
      | some m, some a => decide (a ≤ m)
      | some _, none => false
      | none, _ => true)

/-- The unfiltered owner-scoped gift set: `Gift.query.filter_by(user_id=...)`. -/
def userGifts (st : AppState) (uid : Nat) : List Gift :=
  st.gifts.filter fun g => g.user_id == uid

/-- The row set matching the view's query, before ordering. -/
def filteredGifts (st : AppState) (uid : Nat) (f : Filters) : List Gift :=
  st.gifts.filter (matchesFilters uid f)

/-- `order_by(Gift.received_date.desc())`: `a` may precede `b` exactly when
`a`'s received date is at least `b`'s. -/
def dateDesc (a b : Gift) : Prop := b.received_date ≤ a.received_date

instance : DecidableRel dateDesc := fun a b => Nat.decLe b.received_date a.received_date

instance : IsTotal Gift dateDesc := ⟨fun a b => Nat.le_total b.received_date a.received_date⟩

instance : IsTrans Gift dateDesc := ⟨fun _ _ _ h1 h2 => Nat.le_trans h2 h1⟩

/-- The list returned by `qset.order_by(Gift.received_date.desc()).all()`
(src/app.py line 212), realised as a stable sort of the matching rows;
the SQL `ORDER BY` constrains only the date order (see `giftsQueryRel`). -/
def listGifts (st : AppState) (uid : Nat) (f : Filters) : List Gift :=
  List.insertionSort dateDesc (filteredGifts st uid f)

/-- What the SQL query actually guarantees about the returned list: it is
some permutation of the matching row set that is sorted by received date,
descending.  No further ordering is imposed by the code. -/
def giftsQueryRel (st : AppState) (uid : Nat) (f : Filters) (l : List Gift) : Prop :=
  l.Perm (filteredGifts st uid f) ∧ l.Sorted dateDesc

/-- The filter set of the plain "todo" view: only `todo=1` supplied. -/
def todoOnlyFilters : Filters :=
  { q := [], giver_id := none, category_id := none, only_todo := true,
    min_amount := none, max_amount := none, amount_only := false }

/-- The empty filter set: no parameter supplied. -/
def noFilters : Filters :=
  { q := [], giver_id := none, category_id := none, only_todo := false,
    min_amount := none, max_amount := none, amount_only := false }

/-- The gift set of the calendar feed (src/app.py lines 342-346):
`filter_by(user_id=..., return_done=False).filter(Gift.return_due_date != None)`. -/
def calendarGifts (st : AppState) (uid : Nat) : List Gift :=
  st.gifts.filter fun g =>
    g.user_id == uid && g.return_done == false && g.return_due_date.isSome

theorem mem_filteredGifts {st : AppState} {uid : Nat} {f : Filters} {g : Gift} :
    g ∈ filteredGifts st uid f ↔ g ∈ st.gifts ∧ matchesFilters uid f g = true := by
  simp [filteredGifts, List.mem_filter]

theorem mem_listGifts {st : AppState} {uid : Nat} {f : Filters} {g : Gift} :
    g ∈ listGifts st uid f ↔ g ∈ st.gifts ∧ matchesFilters uid f g = true := by
  rw [← mem_filteredGifts]
  exact (List.perm_insertionSort dateDesc (filteredGifts st uid f)).mem_iff

/-- C2: a gift is in the calendar feed iff it is a stored gift of the acting
user with a non-null return due date and `return_done = false`, and the
calendar inclusion predicate is exactly the list view's `todo_only` filter:
the calendar gift set coincides with the row set of the list view queried
with only `todo=1`. -/
theorem C2_calendar_feed_matches_todo_filter (st : AppState) (uid : Nat) :
    (∀ g : Gift, g ∈ calendarGifts st uid ↔
      g ∈ st.gifts ∧ g.user_id = uid ∧ g.return_due_date.isSome ∧ g.return_done = false)
    ∧ calendarGifts st uid = filteredGifts st uid todoOnlyFilters := by
  constructor
  · intro g
    simp only [calendarGifts, List.mem_filter, Bool.and_eq_true, beq_iff_eq]
    tauto
  · unfold calendarGifts filteredGifts
    apply List.filter_congr
    intro g _
    simp [matchesFilters, todoOnlyFilters, truthyInt, pyStrip, Bool.and_assoc]

theorem startsWithSub_iff (n : Str) : ∀ h : Str,
    startsWithSub n h = true ↔ ∃ post, h = n ++ post := by
  induction n with
  | nil => intro h; simp [startsWithSub]
  | cons a as ih =>
    intro h
    cases h with
    | nil =>
      simp [startsWithSub]
    | cons b bs =>
      simp only [startsWithSub, Bool.and_eq_true, beq_iff_eq, ih, List.cons_append,
        List.cons.injEq]
      constructor
      · rintro ⟨rfl, post, rfl⟩
        exact ⟨post, rfl, rfl⟩
      · rintro ⟨post, rfl, rfl⟩
        exact ⟨rfl, post, rfl⟩

theorem containsSub_iff (n : Str) : ∀ h : Str,
    containsSub n h = true ↔ ∃ pre post, h = pre ++ n ++ post := by
  intro h
  induction h with
  | nil =>
    simp only [containsSub, List.isEmpty_iff]
    constructor
    · rintro rfl
      exact ⟨[], [], rfl⟩
    · rintro ⟨pre, post, hp⟩
      rcases List.append_eq_nil.mp (List.append_eq_nil.mp hp.symm).1 with ⟨-, h2⟩
      exact h2
  | cons c t ih =>
    simp only [containsSub, Bool.or_eq_true, startsWithSub_iff, ih]
    constructor
    · rintro (⟨post, hp⟩ | ⟨pre, post, hp⟩)
      · exact ⟨[], post, by simpa using hp⟩
      · exact ⟨c :: pre, post, by simp [hp]⟩
    · rintro ⟨pre, post, hp⟩
      cases pre with
      | nil => exact Or.inl ⟨post, by simpa using hp⟩
      | cons x xs =>
        obtain ⟨-, ht⟩ := List.cons.inj hp
        exact Or.inr ⟨xs, post, ht⟩

/-- A stored gift with a nonzero giver id, used to exercise the list view. -/
def cexGift : Gift :=
  { id := 1, user_id := 1, title := ['x'], memo := [], giver_id := some 1,
    category_id := none, received_date := 0, thank_you_sent := false,
    return_due_date := none, return_done := false, amount_yen := none }

/-- A store holding only `cexGift`. -/
def cexState : AppState := { gifts := [cexGift], givers := [], categories := [] }

/-- A filter set supplying `giver_id = 0` and nothing else. -/
def cexFilters : Filters :=
  { q := [], giver_id := some 0, category_id := none, only_todo := false,
    min_amount := none, max_amount := none, amount_only := false }

/-- C1 counterexample: with the filter `giver_id = 0` supplied, the list view
returns a gift whose `giver_id` is `1`, not `0` — the handler's
`if selected_giver_id:` truthiness test silently drops a zero id, so the
returned gift does not satisfy the supplied exact-match predicate and the
claim as stated fails. -/
theorem C1_filters_conjunctive_counterexample :
    cexFilters.giver_id = some 0
    ∧ cexGift ∈ listGifts cexState 1 cexFilters
    ∧ cexGift.giver_id ≠ some 0 := by decide

/-- C1 (amended): every gift returned by the list view lies in the owner's
unfiltered gift set and satisfies every supplied filter predicate
simultaneously (AND, never OR) — where, as the handler implements it, the
text predicate matches the whitespace-stripped text and a supplied
`giver_id` or `category_id` equal to `0` is treated as absent (Python
truthiness), so the exact-match guarantee holds for nonzero ids. -/
theorem C1_filters_conjunctive_amended (st : AppState) (uid : Nat) (f : Filters)
    (g : Gift) (hg : g ∈ listGifts st uid f) :
    g ∈ userGifts st uid
    ∧ (pyStrip f.q ≠ [] → ∃ pre post, g.title = pre ++ pyStrip f.q ++ post)
    ∧ (∀ n, f.giver_id = some n → n ≠ 0 → g.giver_id = some n)
    ∧ (∀ n, f.category_id = some n → n ≠ 0 → g.category_id = some n)
    ∧ (f.only_todo = true → g.return_done = false ∧ g.return_due_date.isSome)
    ∧ ((f.amount_only = true ∨ f.min_amount.isSome ∨ f.max_amount.isSome) →
        g.amount_yen.isSome)
    ∧ (∀ m a, f.min_amount = some m → g.amount_yen = some a → m ≤ a)
    ∧ (∀ m a, f.max_amount = some m → g.amount_yen = some a → a ≤ m) := by
  obtain ⟨hmem, hm⟩ := mem_listGifts.mp hg
  simp only [matchesFilters, Bool.and_eq_true] at hm
  obtain ⟨⟨⟨⟨⟨⟨⟨hu, hq⟩, hgiv⟩, hcat⟩, htodo⟩, hamt⟩, hmin⟩, hmax⟩ := hm
  refine ⟨?_, ?_, ?_, ?_, ?_, ?_, ?_, ?_⟩
  · simp [userGifts, List.mem_filter, hmem, hu]
  · intro hne
    rcases Bool.or_eq_true _ _ |>.mp hq with h | h
    · exact absurd (List.isEmpty_iff.mp h) hne
    · exact (containsSub_iff _ _).mp h
  · intro n hn hn0
    rw [hn] at hgiv
    have : truthyInt (some n) = true := by simp [truthyInt, hn0]
    rw [this] at hgiv
    simpa [hn] using hgiv
  · intro n hn hn0
    rw [hn] at hcat
    have : truthyInt (some n) = true := by simp [truthyInt, hn0]
    rw [this] at hcat
    simpa [hn] using hcat
  · intro ht
    rw [ht] at htodo
    simpa using htodo
  · intro h
    have : (f.amount_only || f.min_amount.isSome || f.max_amount.isSome) = true := by
      rcases h with h | h | h <;> simp [h]
    rw [this] at hamt
    simpa using hamt
  · intro m a hfm ha
    rw [hfm, ha] at hmin
    simpa using hmin
  · intro m a hfm ha
    rw [hfm, ha] at hmax
    simpa using hmax

/-- Witness for C1 (amended): the conclusion instantiated at the concrete
store `cexState`, acting user 1 and filter set `cexFilters`. -/
theorem C1_filters_conjunctive_amended_witness :
    cexGift ∈ userGifts cexState 1
    ∧ (pyStrip cexFilters.q ≠ [] →
        ∃ pre post, cexGift.title = pre ++ pyStrip cexFilters.q ++ post)
    ∧ (∀ n, cexFilters.giver_id = some n → n ≠ 0 → cexGift.giver_id = some n)
    ∧ (∀ n, cexFilters.category_id = some n → n ≠ 0 → cexGift.category_id = some n)
    ∧ (cexFilters.only_todo = true →
        cexGift.return_done = false ∧ cexGift.return_due_date.isSome)
    ∧ ((cexFilters.amount_only = true ∨ cexFilters.min_amount.isSome ∨
        cexFilters.max_amount.isSome) → cexGift.amount_yen.isSome)
    ∧ (∀ m a, cexFilters.min_amount = some m → cexGift.amount_yen = some a → m ≤ a)
    ∧ (∀ m a, cexFilters.max_amount = some m → cexGift.amount_yen = some a → a ≤ m) :=
  C1_filters_conjunctive_amended cexState 1 cexFilters cexGift (by decide)

/-- C5: if any of `min_amount`, `max_amount`, `amount_only` is supplied, every
gift returned by the list view has a non-null amount, and each numeric bound
that was supplied holds of that amount (either bound may be omitted
independently). -/
theorem C5_amount_filters (st : AppState) (uid : Nat) (f : Filters) (g : Gift)
    (hg : g ∈ listGifts st uid f) :
    ((f.amount_only = true ∨ f.min_amount.isSome ∨ f.max_amount.isSome) →
      g.amount_yen.isSome)
    ∧ (∀ m, f.min_amount = some m → ∃ a, g.amount_yen = some a ∧ m ≤ a)
    ∧ (∀ m, f.max_amount = some m → ∃ a, g.amount_yen = some a ∧ a ≤ m) := by
  obtain ⟨hmem, hm⟩ := mem_listGifts.mp hg
  simp only [matchesFilters, Bool.and_eq_true] at hm
  obtain ⟨⟨⟨⟨⟨⟨⟨hu, hq⟩, hgiv⟩, hcat⟩, htodo⟩, hamt⟩, hmin⟩, hmax⟩ := hm
  refine ⟨?_, ?_, ?_⟩
  · intro h
    have : (f.amount_only || f.min_amount.isSome || f.max_amount.isSome) = true := by
      rcases h with h | h | h <;> simp [h]
    rw [this] at hamt
    simpa using hamt
  · intro m hfm
    rw [hfm] at hmin
    cases ha : g.amount_yen with
    | none => rw [ha] at hmin; simp at hmin
    | some a =>
      rw [ha] at hmin
      exact ⟨a, rfl, by simpa using hmin⟩
  · intro m hfm
    rw [hfm] at hmax
    cases ha : g.amount_yen with
    | none => rw [ha] at hmax; simp at hmax
    | some a =>
      rw [ha] at hmax
      exact ⟨a, rfl, by simpa using hmax⟩

/-- A stored gift carrying an amount, for exercising the amount filters. -/
def amtGift : Gift :=
  { id := 1, user_id := 1, title := ['t'], memo := [], giver_id := none,
    category_id := none, received_date := 3, thank_you_sent := false,
    return_due_date := none, return_done := false, amount_yen := some 5 }

/-- A store holding only `amtGift`. -/
def amtState : AppState := { gifts := [amtGift], givers := [], categories := [] }

/-- A filter set supplying both bounds and `amount_only`. -/
def amtFilters : Filters :=
  { q := [], giver_id := none, category_id := none, only_todo := false,
    min_amount := some 1, max_amount := some 10, amount_only := true }

/-- Witness for C5 at a concrete store and filter set. -/
theorem C5_amount_filters_witness :
    ((amtFilters.amount_only = true ∨ amtFilters.min_amount.isSome ∨
      amtFilters.max_amount.isSome) → amtGift.amount_yen.isSome)
    ∧ (∀ m, amtFilters.min_amount = some m →
        ∃ a, amtGift.amount_yen = some a ∧ m ≤ a)
    ∧ (∀ m, amtFilters.max_amount = some m →
        ∃ a, amtGift.amount_yen = some a ∧ a ≤ m) :=
  C5_amount_filters amtState 1 amtFilters amtGift (by decide)

/-- `[g.amount_yen for g in gifts if g.amount_yen is not None]`
(src/app.py line 217). -/
def giftAmounts (gifts : List Gift) : List Int :=
  gifts.filterMap Gift.amount_yen

/-- `total_amount = sum(amounts) if amounts else 0` (src/app.py line 218). -/
def totalAmount (gifts : List Gift) : Int :=
  if (giftAmounts gifts).isEmpty then 0 else (giftAmounts gifts).sum

/-- Python `round(num / den)` for integers with `den > 0`: round to nearest,
halves to even (banker's rounding), computed on the exact quotient. -/
def pyRound (num den : Int) : Int :=
  if 2 * num.emod den < den then num.ediv den
  else if den < 2 * num.emod den then num.ediv den + 1
  else if (num.ediv den).emod 2 = 0 then num.ediv den else num.ediv den + 1

/-- `avg_amount = round(sum(amounts) / len(amounts)) if amounts else None`
(src/app.py line 219). -/
def avgAmount (gifts : List Gift) : Option Int :=
  if (giftAmounts gifts).isEmpty then none
  else some (pyRound (giftAmounts gifts).sum (giftAmounts gifts).length)

theorem totalAmount_eq_sum (gifts : List Gift) :
    totalAmount gifts = (giftAmounts gifts).sum := by
  unfold totalAmount
  split
  · next h => rw [List.isEmpty_iff.mp h]; rfl
  · rfl

/-- `pyRound num den` is a nearest integer to `num / den`: the doubled
difference between it and the exact mean stays within the denominator. -/
theorem pyRound_near (num den : Int) (hden : 0 < den) :
    -den ≤ 2 * (pyRound num den * den - num)
    ∧ 2 * (pyRound num den * den - num) ≤ den := by
  have h2 : 0 ≤ num.emod den := Int.emod_nonneg num (by omega)
  have h3 : num.emod den < den := Int.emod_lt_of_pos num hden
  have h1 : den * num.ediv den + num.emod den = num := Int.ediv_add_emod num den
  unfold pyRound
  generalize hq : num.ediv den = q at h1 ⊢
  generalize hrm : num.emod den = r at h1 h2 h3 ⊢
  subst h1
  split_ifs with hA hB hC
  · have e : 2 * (q * den - (den * q + r)) = -(2 * r) := by ring
    rw [e]; omega
  · have e : 2 * ((q + 1) * den - (den * q + r)) = 2 * (den - r) := by ring
    rw [e]; omega
  · have e : 2 * (q * den - (den * q + r)) = -(2 * r) := by ring
    rw [e]; omega
  · have e : 2 * ((q + 1) * den - (den * q + r)) = 2 * (den - r) := by ring
    rw [e]; omega

theorem giftAmounts_eq_map_filter (gifts : List Gift) :
    giftAmounts gifts =
      (gifts.filter fun g => g.amount_yen.isSome).map fun g => g.amount_yen.getD 0 := by
  induction gifts with
  | nil => rfl
  | cons g gs ih =>
    cases ha : g.amount_yen with
    | none => simp [giftAmounts, List.filterMap_cons, ha, List.filter_cons,
        giftAmounts] at ih ⊢; exact ih
    | some a => simp [giftAmounts, List.filterMap_cons, ha, List.filter_cons,
        giftAmounts] at ih ⊢; exact ih

/-- C3: over any filtered gift list, `total_amount` is the sum of the amounts
of exactly the gifts with a non-null amount (0 when there are none),
`avg_amount` is absent exactly when no gift in the list has an amount, and
otherwise it is a nearest-integer rounding of the mean of the non-null
amounts: the doubled distance between `avg * count` and `total` is at most
`count`.  Gifts with a null amount are excluded, never counted as zero. -/
theorem C3_aggregates (st : AppState) (uid : Nat) (f : Filters) :
    totalAmount (listGifts st uid f) =
      (((listGifts st uid f).filter fun g => g.amount_yen.isSome).map
        fun g => g.amount_yen.getD 0).sum
    ∧ ((giftAmounts (listGifts st uid f)).isEmpty = true →
        totalAmount (listGifts st uid f) = 0)
    ∧ (avgAmount (listGifts st uid f) = none ↔
        ∀ g ∈ listGifts st uid f, g.amount_yen = none)
    ∧ (∀ r, avgAmount (listGifts st uid f) = some r →
        -((giftAmounts (listGifts st uid f)).length : Int) ≤
          2 * (r * (giftAmounts (listGifts st uid f)).length -
            totalAmount (listGifts st uid f))
        ∧ 2 * (r * (giftAmounts (listGifts st uid f)).length -
            totalAmount (listGifts st uid f)) ≤
          (giftAmounts (listGifts st uid f)).length) := by
  refine ⟨?_, ?_, ?_, ?_⟩
  · rw [totalAmount_eq_sum, giftAmounts_eq_map_filter]
  · intro h
    unfold totalAmount
    rw [h]
    rfl
  · unfold avgAmount
    split
    · next h =>
      constructor
      · intro _ g hg
        have h0 := List.isEmpty_iff.mp h
        unfold giftAmounts at h0
        rw [List.filterMap_eq_nil_iff] at h0
        exact h0 g hg
      · intro _
        rfl
    · next h =>
      constructor
      · intro hr
        exact (Option.some_ne_none _ hr).elim
      · intro hall
        refine absurd (List.isEmpty_iff.mpr ?_) h
        unfold giftAmounts
        rw [List.filterMap_eq_nil_iff]
        exact hall
  · intro r hr
    unfold avgAmount at hr
    split at hr
    · exact absurd hr (by simp)
    · next h =>
      have hlen : 0 < ((giftAmounts (listGifts st uid f)).length : Int) := by
        have hne : giftAmounts (listGifts st uid f) ≠ [] := fun he => h (by simp [he])
        exact_mod_cast List.length_pos.mpr hne
      have hrr : r = pyRound (giftAmounts (listGifts st uid f)).sum
          (giftAmounts (listGifts st uid f)).length := (Option.some.inj hr).symm
      rw [hrr, totalAmount_eq_sum]
      exact pyRound_near _ _ hlen

/-- Witness for C3's rounding bound at a concrete store (`amtState`, whose
single gift has amount 5, so the average is `some 5`): the inner hypothesis
`avgAmount … = some 5` is discharged by evaluation. -/
theorem C3_aggregates_witness :
    -((giftAmounts (listGifts amtState 1 noFilters)).length : Int) ≤
      2 * (5 * (giftAmounts (listGifts amtState 1 noFilters)).length -
        totalAmount (listGifts amtState 1 noFilters))
    ∧ 2 * (5 * (giftAmounts (listGifts amtState 1 noFilters)).length -
        totalAmount (listGifts amtState 1 noFilters)) ≤
      (giftAmounts (listGifts amtState 1 noFilters)).length :=
  (C3_aggregates amtState 1 noFilters).2.2.2 5 (by decide)

/-- Resolution of the `g.category` relationship: the category row the
gift's nullable foreign key points at, if any. -/
def resolveCategory (st : AppState) (g : Gift) : Option Category :=
  g.category_id.bind fun cid => st.categories.find? fun c => c.id == cid

/-- `category_totals[name] += amt` on a `defaultdict(int)` kept as an
insertion-ordered association list: update the existing entry or append a
fresh one starting from 0. -/
def addTotal (name : Str) (amt : Int) : List (Str × Int) → List (Str × Int)
  | [] => [(name, amt)]
  | (n, v) :: rest =>
    if n = name then (n, v + amt) :: rest else (n, v) :: addTotal name amt rest

/-- One iteration of the aggregation loop (src/app.py lines 222-224):
`if g.amount_yen is not None and g.category: totals[g.category.name] += g.amount_yen`. -/
def totalsStep (st : AppState) (acc : List (Str × Int)) (g : Gift) : List (Str × Int) :=
  match g.amount_yen, resolveCategory st g with
  | some a, some c => addTotal c.name a acc
  | _, _ => acc

/-- The `category_totals` dict built over the filtered gift list
(src/app.py lines 221-224). -/
def categoryTotals (st : AppState) (gifts : List Gift) : List (Str × Int) :=
  gifts.foldl (totalsStep st) []

/-- A gift contributes to the bucket `name` iff it has a non-null amount and
its resolved category's name is `name`. -/
def contributes (st : AppState) (name : Str) (g : Gift) : Bool :=
  g.amount_yen.isSome && ((resolveCategory st g).map Category.name == some name)

/-- The amounts a gift list contributes to the bucket `name`. -/
def contribAmounts (st : AppState) (name : Str) (gs : List Gift) : List Int :=
  (gs.filter (contributes st name)).filterMap Gift.amount_yen

/-- Adding a possibly-absent running value to a batch of amounts. -/
def optAdd : Option Int → List Int → Option Int
  | none, [] => none
  | none, a :: l => some (a + l.sum)
  | some v, l => some (v + l.sum)

theorem lookup_cons (m k : Str) (v : Int) (rest : List (Str × Int)) :
    ((k, v) :: rest).lookup m = if m = k then some v else rest.lookup m := by
  by_cases h : m = k
  · subst h
    simp [List.lookup]
  · have hb : (m == k) = false := by simp [h]
    simp [List.lookup, hb, h]

theorem lookup_addTotal (n : Str) (a : Int) (l : List (Str × Int)) (m : Str) :
    (addTotal n a l).lookup m =
      if m = n then some ((l.lookup n).getD 0 + a) else l.lookup m := by
  induction l with
  | nil =>
    show ((n, a) :: []).lookup m = _
    rw [lookup_cons]
    by_cases hm : m = n <;> simp [hm, List.lookup]
  | cons p rest ih =>
    obtain ⟨k, v⟩ := p
    by_cases hk : k = n
    · subst hk
      rw [show addTotal k a ((k, v) :: rest) = (k, v + a) :: rest from by
        simp [addTotal]]
      by_cases hm : m = k <;> simp [lookup_cons, hm]
    · rw [show addTotal n a ((k, v) :: rest) = (k, v) :: addTotal n a rest from by
        simp [addTotal, hk]]
      by_cases hm : m = k
      · subst hm
        simp [lookup_cons, hk]
      · rw [lookup_cons, if_neg hm, ih]
        by_cases hmn : m = n <;>
          simp [hmn, lookup_cons, hm, Ne.symm hk]

theorem lookup_categoryTotals_loop (st : AppState) (name : Str) :
    ∀ (gs : List Gift) (acc : List (Str × Int)),
      (gs.foldl (totalsStep st) acc).lookup name =
        optAdd (acc.lookup name) (contribAmounts st name gs) := by
  intro gs
  induction gs with
  | nil =>
    intro acc
    cases h : acc.lookup name <;> simp [contribAmounts, optAdd, h]
  | cons g gs ih =>
    intro acc
    rw [List.foldl_cons, ih]
    rcases ha : g.amount_yen with - | a
    · have hc : contributes st name g = false := by
        simp [contributes, ha]
      have hstep : totalsStep st acc g = acc := by
        simp [totalsStep, ha]
      rw [hstep]
      have hcons : contribAmounts st name (g :: gs) = contribAmounts st name gs := by
        simp [contribAmounts, List.filter_cons, hc]
      rw [hcons]
    · rcases hcat : resolveCategory st g with - | c
      · have hc : contributes st name g = false := by
          simp [contributes, hcat]
        have hstep : totalsStep st acc g = acc := by
          simp [totalsStep, ha, hcat]
        rw [hstep]
        have hcons : contribAmounts st name (g :: gs) = contribAmounts st name gs := by
          simp [contribAmounts, List.filter_cons, hc]
        rw [hcons]
      · have hstep : totalsStep st acc g = addTotal c.name a acc := by
          simp [totalsStep, ha, hcat]
        rw [hstep, lookup_addTotal]
        by_cases hn : c.name = name
        · have hc : contributes st name g = true := by
            simp [contributes, ha, hcat, hn]
          have hcons : contribAmounts st name (g :: gs) =
              a :: contribAmounts st name gs := by
            simp [contribAmounts, List.filter_cons, hc, List.filterMap_cons, ha]
          rw [hcons, hn, if_pos rfl]
          cases hacc : acc.lookup name with
          | none => simp [hacc, optAdd]
          | some v => simp [hacc, optAdd, add_assoc]
        · have hc : contributes st name g = false := by
            simp [contributes, ha, hcat, hn]
          have hcons : contribAmounts st name (g :: gs) =
              contribAmounts st name gs := by
            simp [contribAmounts, List.filter_cons, hc]
          rw [hcons, if_neg (Ne.symm hn)]

theorem optAdd_none_isSome (l : List Int) : (optAdd none l).isSome = true ↔ l ≠ [] := by
  cases l <;> simp [optAdd]

theorem optAdd_none_eq_some {l : List Int} {v : Int} (h : optAdd none l = some v) :
    v = l.sum := by
  cases l with
  | nil => cases h
  | cons b t =>
    simp only [optAdd, Option.some.injEq] at h
    simp [← h]

theorem contribAmounts_eq_nil_iff (st : AppState) (name : Str) (gs : List Gift) :
    contribAmounts st name gs = [] ↔ ∀ g ∈ gs, contributes st name g = false := by
  unfold contribAmounts
  rw [List.filterMap_eq_nil_iff]
  constructor
  · intro h g hg
    by_contra hcon
    have hc : contributes st name g = true := by
      cases hcc : contributes st name g
      · exact absurd hcc hcon
      · rfl
    have hmem : g ∈ gs.filter (contributes st name) := List.mem_filter.mpr ⟨hg, hc⟩
    have hnone := h g hmem
    have : g.amount_yen.isSome = true := by
      have := hc
      unfold contributes at this
      exact (Bool.and_eq_true _ _ |>.mp this).1
    rw [hnone] at this
    cases this
  · intro h g hgf
    obtain ⟨hg, hc⟩ := List.mem_filter.mp hgf
    rw [h g hg] at hc
    cases hc

/-- C4: for any filtered gift list, a category name is a key of
`category_totals` exactly when some gift in the list has both a non-null
amount and a resolved category with that name, and the value stored under
the key is the sum of the amounts of exactly those gifts; gifts lacking an
amount or a category contribute to no key and to no fallback bucket. -/
theorem C4_category_totals (st : AppState) (uid : Nat) (f : Filters) (name : Str) :
    (((categoryTotals st (listGifts st uid f)).lookup name).isSome ↔
      ∃ g ∈ listGifts st uid f, contributes st name g = true)
    ∧ (∀ v, (categoryTotals st (listGifts st uid f)).lookup name = some v →
        v = (contribAmounts st name (listGifts st uid f)).sum) := by
  have hloop := lookup_categoryTotals_loop st name (listGifts st uid f) []
  have hnil : (([] : List (Str × Int)).lookup name) = none := rfl
  rw [hnil] at hloop
  constructor
  · unfold categoryTotals
    rw [hloop, optAdd_none_isSome]
    constructor
    · intro hne
      by_contra hno
      push_neg at hno
      simp only [Bool.not_eq_true] at hno
      exact hne ((contribAmounts_eq_nil_iff st name _).mpr hno)
    · rintro ⟨g, hg, hc⟩ hnil2
      have := (contribAmounts_eq_nil_iff st name _).mp hnil2 g hg
      rw [hc] at this
      cases this
  · intro v hv
    unfold categoryTotals at hv
    rw [hloop] at hv
    exact optAdd_none_eq_some hv

/-- The category used in the C4 witness (spec §8 example). -/
def catFood : Category := { id := 1, user_id := 1, name := ['F'] }

/-- Gift A of the §8 example: amount 1000, category `['F']`. -/
def catGiftA : Gift :=
  { id := 1, user_id := 1, title := ['a'], memo := [], giver_id := none,
    category_id := some 1, received_date := 1, thank_you_sent := false,
    return_due_date := none, return_done := false, amount_yen := some 1000 }

/-- Gift B of the §8 example: amount 500, same category. -/
def catGiftB : Gift :=
  { id := 2, user_id := 1, title := ['b'], memo := [], giver_id := none,
    category_id := some 1, received_date := 2, thank_you_sent := false,
    return_due_date := none, return_done := false, amount_yen := some 500 }

/-- Gift C of the §8 example: null amount, same category. -/
def catGiftC : Gift :=
  { id := 3, user_id := 1, title := ['c'], memo := [], giver_id := none,
    category_id := some 1, received_date := 3, thank_you_sent := false,
    return_due_date := none, return_done := false, amount_yen := none }

/-- A store realising the §8 example. -/
def catState : AppState :=
  { gifts := [catGiftA, catGiftB, catGiftC], givers := [], categories := [catFood] }

/-- Witness for C4 at the §8 example store: the lookup hypothesis is
discharged by evaluation and the sum of the contributing amounts is 1500
(gift C's null amount does not appear). -/
theorem C4_category_totals_witness :
    (1500 : Int) = (contribAmounts catState ['F'] (listGifts catState 1 noFilters)).sum
    ∧ ((categoryTotals catState (listGifts catState 1 noFilters)).lookup ['F']).isSome :=
  ⟨(C4_category_totals catState 1 noFilters ['F']).2 1500 (by decide),
   (C4_category_totals catState 1 noFilters ['F']).1.mpr ⟨catGiftA, by decide, by decide⟩⟩

/-- One of two stored gifts sharing a received date. -/
def ordGift1 : Gift :=
  { id := 1, user_id := 1, title := ['p'], memo := [], giver_id := none,
    category_id := none, received_date := 5, thank_you_sent := false,
    return_due_date := none, return_done := false, amount_yen := none }

/-- The other gift with the same received date but a larger id. -/
def ordGift2 : Gift :=
  { id := 2, user_id := 1, title := ['r'], memo := [], giver_id := none,
    category_id := none, received_date := 5, thank_you_sent := false,
    return_due_date := none, return_done := false, amount_yen := none }

/-- A store holding the two date-tied gifts in id order. -/
def ordState : AppState := { gifts := [ordGift1, ordGift2], givers := [], categories := [] }

/-- C6 counterexample: the query orders only by `received_date.desc()` with no
secondary key, so for two gifts sharing a received date both output orders
satisfy everything the query constrains (`giftsQueryRel`): the order that
reverses id/insertion order is as admissible as the one that respects it, so
the output order is neither id-tie-broken nor deterministic. -/
theorem C6_deterministic_order_counterexample :
    giftsQueryRel ordState 1 noFilters [ordGift2, ordGift1]
    ∧ giftsQueryRel ordState 1 noFilters [ordGift1, ordGift2]
    ∧ ordGift1.id < ordGift2.id
    ∧ ordGift1.received_date = ordGift2.received_date
    ∧ ([ordGift2, ordGift1] : List Gift) ≠ [ordGift1, ordGift2] := by
  refine ⟨⟨?_, ?_⟩, ⟨?_, ?_⟩, ?_, ?_, ?_⟩ <;> decide

/-- C6 (amended): the query guarantees exactly that the returned list is a
permutation of the matching row set sorted by received date descending; the
relative order of gifts sharing a received date is not constrained by the
code, so determinism and id-order tie-breaking are not guaranteed. -/
theorem C6_order_amended (st : AppState) (uid : Nat) (f : Filters) :
    giftsQueryRel st uid f (listGifts st uid f)
    ∧ (∀ l, giftsQueryRel st uid f l →
        l.Sorted dateDesc ∧ ∀ g, g ∈ l ↔ g ∈ filteredGifts st uid f) := by
  constructor
  · exact ⟨List.perm_insertionSort dateDesc _, List.sorted_insertionSort dateDesc _⟩
  · intro l hl
    exact ⟨hl.2, fun g => hl.1.mem_iff⟩

/-- Witness for C6 (amended) at the concrete tied store, discharging the
inner `giftsQueryRel` hypothesis with the theorem's own first conjunct. -/
theorem C6_order_amended_witness :
    giftsQueryRel ordState 1 noFilters (listGifts ordState 1 noFilters)
    ∧ (listGifts ordState 1 noFilters).Sorted dateDesc :=
  ⟨(C6_order_amended ordState 1 noFilters).1,
   ((C6_order_amended ordState 1 noFilters).2 _
     (C6_order_amended ordState 1 noFilters).1).1⟩

/-- Python `str.replace` for a single-character pattern: every occurrence of
`c` becomes `r`. -/
def replace1 (c : Char) (r : Str) : Str → Str
  | [] => []
  | x :: xs => (if x = c then r else [x]) ++ replace1 c r xs

/-- `escape_ics` (src/app.py lines 131-137): the four `.replace` calls in
source order — backslash first, then newline, then comma, then semicolon. -/
def escape_ics (text : Str) : Str :=
  replace1 ';' ['\\', ';']
    (replace1 ',' ['\\', ',']
      (replace1 '\n' ['\\', 'n']
        (replace1 '\\' ['\\', '\\'] text)))

/-- Python `str.replace` for a two-character pattern `[a, b]`: left-to-right,
non-overlapping, the replacement is not rescanned. -/
def replace2 (a b : Char) (r : Str) : Str → Str
  | [] => []
  | [x] => [x]
  | x :: y :: xs =>
    if x = a ∧ y = b then r ++ replace2 a b r xs
    else x :: replace2 a b r (y :: xs)

/-- The literal "reverse of the four substitutions": the four inverse
replacements applied sequentially in reverse order — semicolon, comma,
newline, backslash. -/
def unescape_seq (s : Str) : Str :=
  replace2 '\\' '\\' ['\\']
    (replace2 '\\' 'n' ['\n']
      (replace2 '\\' ',' [',']
        (replace2 '\\' ';' [';'] s)))

/-- Decoding of one escaped character code after a backslash. -/
def decodeEsc (c : Char) : Str :=
  if c = '\\' then ['\\']
  else if c = 'n' then ['\n']
  else if c = ',' then [',']
  else if c = ';' then [';']
  else ['\\', c]

/-- The scanner that undoes the four substitutions in a single left-to-right
pass: each backslash consumes the following character code. -/
def unescape_ics : Str → Str
  | [] => []
  | x :: xs =>
    if x = '\\' then
      match xs with
      | [] => ['\\']
      | c :: rest => decodeEsc c ++ unescape_ics rest
    else x :: unescape_ics xs

/-- The per-character encoding `escape_ics` amounts to. -/
def encChar (c : Char) : Str :=
  if c = '\\' then ['\\', '\\']
  else if c = '\n' then ['\\', 'n']
  else if c = ',' then ['\\', ',']
  else if c = ';' then ['\\', ';']
  else [c]

theorem replace1_append (c : Char) (r : Str) (a b : Str) :
    replace1 c r (a ++ b) = replace1 c r a ++ replace1 c r b := by
  induction a with
  | nil => rfl
  | cons x xs ih => simp [replace1, ih]

theorem escape_ics_append (a b : Str) :
    escape_ics (a ++ b) = escape_ics a ++ escape_ics b := by
  unfold escape_ics
  rw [replace1_append, replace1_append, replace1_append, replace1_append]

theorem escape_ics_cons (x : Char) (s : Str) :
    escape_ics (x :: s) = encChar x ++ escape_ics s := by
  have h : x :: s = [x] ++ s := rfl
  rw [h, escape_ics_append]
  congr 1
  by_cases h1 : x = '\\'
  · subst h1; rfl
  · by_cases h2 : x = '\n'
    · subst h2; rfl
    · by_cases h3 : x = ','
      · subst h3; rfl
      · by_cases h4 : x = ';'
        · subst h4; rfl
        · simp [escape_ics, replace1, encChar, h1, h2, h3, h4]

/-- C7 counterexample: for the two-character input backslash-`n`, escaping
yields backslash-backslash-`n`, and the sequential reverse of the four
substitutions turns it into backslash-newline instead of restoring the
original text, so the round-trip stated over sequential substitutions fails. -/
theorem C7_escape_roundtrip_counterexample :
    escape_ics ['\\', 'n'] = ['\\', '\\', 'n']
    ∧ unescape_seq (escape_ics ['\\', 'n']) = ['\\', '\n']
    ∧ unescape_seq (escape_ics ['\\', 'n']) ≠ ['\\', 'n'] := by
  refine ⟨?_, ?_, ?_⟩ <;> decide

/-- C7 (amended): `escape_ics` applies exactly the four backslash-escaping
substitutions in the fixed order backslash, newline, comma, semicolon, and
for every input string the escaping is invertible: undoing the four
substitutions by a single left-to-right scan of the escaped text (rather
than by four further sequential replacements) reconstructs the original
string exactly. -/
theorem C7_escape_roundtrip_amended (s : Str) :
    unescape_ics (escape_ics s) = s := by
  induction s with
  | nil => rfl
  | cons x s ih =>
    rw [escape_ics_cons]
    by_cases h1 : x = '\\'
    · subst h1
      simp [encChar, unescape_ics, decodeEsc, ih]
    · by_cases h2 : x = '\n'
      · subst h2
        simp [encChar, unescape_ics, decodeEsc, ih]
      · by_cases h3 : x = ','
        · subst h3
          simp [encChar, unescape_ics, decodeEsc, ih]
        · by_cases h4 : x = ';'
          · subst h4
            simp [encChar, unescape_ics, decodeEsc, ih]
          · have he : encChar x = [x] := by simp [encChar, h1, h2, h3, h4]
            rw [he]
            cases hse : escape_ics s with
            | nil =>
              have hs : s = [] := by
                have h0 := ih
                rw [hse] at h0
                exact h0.symm
              subst hs
              simp [unescape_ics, h1]
            | cons c rest =>
              have h0 := ih
              rw [hse] at h0
              show unescape_ics (x :: c :: rest) = x :: s
              rw [show unescape_ics (x :: c :: rest) = x :: unescape_ics (c :: rest)
                from by simp [unescape_ics, h1]]
              rw [h0]

/-- Resolution of the `g.giver` relationship. -/
def resolveGiver (st : AppState) (g : Gift) : Option Giver :=
  g.giver_id.bind fun i => st.givers.find? fun gv => gv.id == i

/-- `fmt` (src/app.py lines 348-349): `strftime("%Y%m%d")`, abstracted as the
decimal rendering of the model's day number. -/
def fmtDate (d : Nat) : String := toString d

/-- The eight lines the feed loop appends per gift (src/app.py lines 360-374);
the builder is only ever handed gifts with a non-null due date. -/
def eventLines (st : AppState) (now_stamp : String) (g : Gift) : List String :=
  ["BEGIN:VEVENT",
   "UID:giftlog-" ++ toString g.id ++ "@local",
   "DTSTAMP:" ++ now_stamp,
   "SUMMARY:" ++ String.mk (escape_ics ("返礼ToDo: ".data ++ g.title)),
   "DESCRIPTION:" ++ String.mk (escape_ics
     ("贈り主: ".data
      ++ (match resolveGiver st g with | some gv => gv.name | none => [])
      ++ " / カテゴリ: ".data
      ++ (match resolveCategory st g with | some c => c.name | none => []))),
   "DTSTART;VALUE=DATE:" ++ (g.return_due_date.map fmtDate).getD "",
   "DTEND;VALUE=DATE:" ++ (g.return_due_date.map fmtDate).getD "",
   "END:VEVENT"]

/-- The full line list of the calendar document (src/app.py lines 351-376). -/
def calendarLines (st : AppState) (uid : Nat) (now_stamp : String) : List String :=
  ["BEGIN:VCALENDAR", "VERSION:2.0", "PRODID:-//GiftLog//JP",
   "CALSCALE:GREGORIAN", "METHOD:PUBLISH"]
  ++ (calendarGifts st uid).flatMap (eventLines st now_stamp)
  ++ ["END:VCALENDAR"]

/-- `ics = "\r\n".join(lines)` (src/app.py line 378). -/
def calendarFeedIcs (st : AppState) (uid : Nat) (now_stamp : String) : String :=
  String.intercalate "\r\n" (calendarLines st uid now_stamp)

/-- C8: when the acting user has no open return obligation the builder still
produces a structurally valid document — the six fixed lines forming exactly
one `BEGIN:VCALENDAR…END:VCALENDAR` envelope with zero `BEGIN:VEVENT` blocks,
joined by CRLF — and on every input set the builder totally produces a
document opening with `BEGIN:VCALENDAR` and closing with `END:VCALENDAR`. -/
theorem C8_empty_obligations_calendar (st : AppState) (uid : Nat) (stamp : String)
    (h : calendarGifts st uid = []) :
    calendarLines st uid stamp =
      ["BEGIN:VCALENDAR", "VERSION:2.0", "PRODID:-//GiftLog//JP",
       "CALSCALE:GREGORIAN", "METHOD:PUBLISH", "END:VCALENDAR"]
    ∧ (calendarLines st uid stamp).count "BEGIN:VEVENT" = 0
    ∧ (calendarLines st uid stamp).count "BEGIN:VCALENDAR" = 1
    ∧ (calendarLines st uid stamp).count "END:VCALENDAR" = 1
    ∧ calendarFeedIcs st uid stamp =
        "BEGIN:VCALENDAR\r\nVERSION:2.0\r\nPRODID:-//GiftLog//JP\r\nCALSCALE:GREGORIAN\r\nMETHOD:PUBLISH\r\nEND:VCALENDAR"
    ∧ (∀ (st2 : AppState) (uid2 : Nat),
        (calendarLines st2 uid2 stamp).head? = some "BEGIN:VCALENDAR"
        ∧ (calendarLines st2 uid2 stamp).getLast? = some "END:VCALENDAR") := by
  have hl : calendarLines st uid stamp =
      ["BEGIN:VCALENDAR", "VERSION:2.0", "PRODID:-//GiftLog//JP",
       "CALSCALE:GREGORIAN", "METHOD:PUBLISH", "END:VCALENDAR"] := by
    unfold calendarLines
    rw [h]
    rfl
  refine ⟨hl, ?_, ?_, ?_, ?_, ?_⟩
  · rw [hl]; rfl
  · rw [hl]; rfl
  · rw [hl]; rfl
  · unfold calendarFeedIcs
    rw [hl]
    rfl
  · intro st2 uid2
    constructor
    · rfl
    · exact List.getLast?_concat _

/-- A store with no rows at all. -/
def emptyState : AppState := { gifts := [], givers := [], categories := [] }

/-- Witness for C8 at the empty store: the empty-obligations hypothesis is
discharged by evaluation. -/
theorem C8_empty_obligations_calendar_witness :
    calendarLines emptyState 1 "20240101T000000Z" =
      ["BEGIN:VCALENDAR", "VERSION:2.0", "PRODID:-//GiftLog//JP",
       "CALSCALE:GREGORIAN", "METHOD:PUBLISH", "END:VCALENDAR"] :=
  (C8_empty_obligations_calendar emptyState 1 "20240101T000000Z" rfl).1

/-- The typed content of a submitted gift form: `title`/`memo` as raw text
(the handlers strip them), the ids and the amount as `type=int` parses
(`None` when absent or unparseable), the dates as `parse_date` results
(`None` when absent or malformed), the flags as `== "on"` checkbox tests. -/
structure GiftForm where
  title : Str
  memo : Str
  giver_id : Option Nat
  category_id : Option Nat
  received_date : Option Nat
  thank_you_sent : Bool
  return_due_date : Option Nat
  return_done : Bool
  amount_yen : Option Int
  deriving DecidableEq

/-- Outcome reported by the create handler. -/
inductive PostResult
  | ok
  | validationError
  deriving DecidableEq

/-- Outcome reported by the edit handler (`first_or_404`). -/
inductive EditResult
  | ok
  | notFound
  deriving DecidableEq

/-- The rowid SQLite would assign to the next inserted gift. -/
def nextGiftId (st : AppState) : Nat :=
  st.gifts.foldl (fun m g => max m g.id) 0 + 1

/-- The POST branch of `gift_new` (src/app.py lines 150-176): a blank
stripped title flashes an error and re-renders with status 400 committing
nothing; otherwise a new `Gift` row is inserted and committed. -/
def gift_new (st : AppState) (uid : Nat) (today : Nat) (form : GiftForm) :
    AppState × PostResult :=
  if (pyStrip form.title).isEmpty then
    (st, PostResult.validationError)
  else
    ({ st with gifts := st.gifts ++
        [{ id := nextGiftId st,
           user_id := uid,
           title := pyStrip form.title,
           memo := pyStrip form.memo,
           giver_id := form.giver_id,
           category_id := form.category_id,
           received_date := form.received_date.getD today,
           thank_you_sent := form.thank_you_sent,
           return_due_date := form.return_due_date,
           return_done := form.return_done,
           amount_yen := form.amount_yen }] },
     PostResult.ok)

/-- The field update the POST branch of `gift_edit` performs on the fetched
row (src/app.py lines 250-258): `title = form title stripped or gift.title`,
`received_date = parse_date(...) or gift.received_date`, every other field
overwritten from the form. -/
def applyEdit (gift : Gift) (form : GiftForm) : Gift :=
  { gift with
    title := if (pyStrip form.title).isEmpty then gift.title else pyStrip form.title,
    memo := pyStrip form.memo,
    giver_id := form.giver_id,
    category_id := form.category_id,
    received_date := form.received_date.getD gift.received_date,
    thank_you_sent := form.thank_you_sent,
    return_due_date := form.return_due_date,
    return_done := form.return_done,
    amount_yen := form.amount_yen }

/-- The POST branch of `gift_edit` (src/app.py lines 245-261):
`first_or_404` on id and owner, then the field update is committed. -/
def gift_edit (st : AppState) (uid : Nat) (gift_id : Nat) (form : GiftForm) :
    AppState × EditResult :=
  match st.gifts.find? (fun g => g.id == gift_id && g.user_id == uid) with
  | none => (st, EditResult.notFound)
  | some _ =>
    ({ st with gifts := st.gifts.map fun g =>
        if g.id == gift_id && g.user_id == uid then applyEdit g form else g },
     EditResult.ok)

/-- C9: submitting the create form with a missing or whitespace-only title
reports a validation error to the caller and leaves the store exactly
unchanged — no gift row is added and no existing row is modified. -/
theorem C9_create_blank_title_rejected (st : AppState) (uid : Nat) (today : Nat)
    (form : GiftForm) (h : pyStrip form.title = []) :
    gift_new st uid today form = (st, PostResult.validationError) := by
  unfold gift_new
  rw [h]
  rfl

/-- A form whose title is whitespace-only. -/
def blankForm : GiftForm :=
  { title := [' ', ' '], memo := ['m'], giver_id := some 1, category_id := some 1,
    received_date := some 7, thank_you_sent := true, return_due_date := some 9,
    return_done := false, amount_yen := some 800 }

/-- Witness for C9: the whitespace-only form against the one-gift store,
with the blank-title hypothesis discharged by evaluation. -/
theorem C9_create_blank_title_rejected_witness :
    gift_new cexState 1 42 blankForm = (cexState, PostResult.validationError) :=
  C9_create_blank_title_rejected cexState 1 42 blankForm (by decide)

/-- C10 (implicit): in the edit handler a blank (empty or whitespace-only)
submitted title is not a validation error — the edit is accepted whenever
the row exists (while the same form is rejected by the create handler) —
and the gift keeps its prior title while memo, giver, category, dates,
flags and amount are all overwritten from the submitted form (the received
date falling back to the prior value only when the submitted date is absent
or malformed). -/
theorem C10_edit_blank_title_keeps_title (gift : Gift) (form : GiftForm)
    (h : pyStrip form.title = []) :
    (applyEdit gift form).title = gift.title
    ∧ (applyEdit gift form).memo = pyStrip form.memo
    ∧ (applyEdit gift form).giver_id = form.giver_id
    ∧ (applyEdit gift form).category_id = form.category_id
    ∧ (applyEdit gift form).received_date = form.received_date.getD gift.received_date
    ∧ (applyEdit gift form).thank_you_sent = form.thank_you_sent
    ∧ (applyEdit gift form).return_due_date = form.return_due_date
    ∧ (applyEdit gift form).return_done = form.return_done
    ∧ (applyEdit gift form).amount_yen = form.amount_yen
    ∧ (∀ (st : AppState) (uid gid : Nat),
        (st.gifts.find? fun g => g.id == gid && g.user_id == uid).isSome →
          (gift_edit st uid gid form).2 = EditResult.ok)
    ∧ (∀ (st : AppState) (uid today : Nat),
        (gift_new st uid today form).2 = PostResult.validationError) := by
  refine ⟨?_, rfl, rfl, rfl, rfl, rfl, rfl, rfl, rfl, ?_, ?_⟩
  · unfold applyEdit
    rw [h]
    rfl
  · intro st uid gid hfind
    unfold gift_edit
    cases hf : st.gifts.find? fun g => g.id == gid && g.user_id == uid with
    | none => rw [hf] at hfind; cases hfind
    | some g0 => rfl
  · intro st uid today
    unfold gift_new
    rw [h]
    rfl

/-- Witness for C2 at a concrete store: the calendar set and the todo-filter
row set coincide. -/
theorem C2_calendar_feed_matches_todo_filter_witness :
    calendarGifts ordState 1 = filteredGifts ordState 1 todoOnlyFilters :=
  (C2_calendar_feed_matches_todo_filter ordState 1).2

/-- Witness for C10: editing the stored gift with the whitespace-only form,
hypotheses discharged by evaluation. -/
theorem C10_edit_blank_title_keeps_title_witness :
    (applyEdit cexGift blankForm).title = cexGift.title
    ∧ (gift_edit cexState 1 1 blankForm).2 = EditResult.ok :=
  ⟨(C10_edit_blank_title_keeps_title cexGift blankForm (by decide)).1,
   (C10_edit_blank_title_keeps_title cexGift blankForm (by decide)).2.2.2.2.2.2.2.2.2.1
     cexState 1 1 (by decide)⟩

end GiftLog
